import Mathlib

/-!
Shallow embedding of the user-space TCP endpoint in src/tcp.rs.

Machine integers are modelled as Nat with explicit reduction modulo 2^32
where the source performs 32-bit arithmetic: wrapping_add and wrapping_sub
become wadd and wsub, and the plain u32 additions of the source (such as
the sequence-number increments in Connection::accept) are modelled with the
release-profile two's-complement wrapping semantics, which is also how the
specification reads them.

The TUN device is modelled by returning the emitted segments: a function
that in the source writes segments to the nic here returns them as values.
Paths on which the source panics (the assert in the acknowledgment
processing and the unimplemented arm of the peer-FIN handling) are
modelled by returning none.
-/

namespace Trust

/-- The modulus of unsigned 32-bit arithmetic, 2^32. -/
def M : Nat := 4294967296

/-- u32 wrapping addition. -/
def wadd (a b : Nat) : Nat := (a + b) % M

/-- u32 wrapping subtraction, for operands below the modulus. -/
def wsub (a b : Nat) : Nat := (a + M - b) % M

/-- Wrapped sequence-number order over the half-space of size 2^31:
a comes not after b when the wrapped distance from a to b is below 2^31. -/
def seq_le (a b : Nat) : Prop := wsub b a < 2147483648

instance (a b : Nat) : Decidable (seq_le a b) := Nat.decLt _ _

/-- TCP connection states of the source (enum State in src/tcp.rs). -/
inductive State where
  | SyncRcvd
  | Estab
  | FinWait1
  | FinWait2
  | CloseWait
  | TimeWait
deriving DecidableEq

/-- State::is_synchonized of the source (spelling kept from the source). -/
def State.is_synchonized : State → Bool
  | .Estab | .FinWait1 | .FinWait2 | .CloseWait | .TimeWait => true
  | .SyncRcvd => false

/-- Send sequence space (struct SendSequenceSpace, RFC 793 S3.2 F4). -/
structure SendSequenceSpace where
  una : Nat
  nxt : Nat
  wnd : Nat
  up : Bool
  wl1 : Nat
  wl2 : Nat
  iss : Nat
deriving DecidableEq

/-- Receive sequence space (struct RecvSequenceSpace, RFC 793 S3.2 F5). -/
structure RecvSequenceSpace where
  nxt : Nat
  wnd : Nat
  up : Bool
  irs : Nat
deriving DecidableEq

/-- The fields of an etherparse TcpHeader that the source reads or writes. -/
structure TcpHeader where
  source_port : Nat
  destination_port : Nat
  sequence_number : Nat
  acknowledgment_number : Nat
  window_size : Nat
  syn : Bool
  ack : Bool
  fin : Bool
  rst : Bool
deriving DecidableEq

/-- The fields of an etherparse Ipv4Header that the source reads or writes. -/
structure Ipv4Header where
  payload_len : Nat
  ttl : Nat
  protocol : Nat
  source : Nat
  destination : Nat
deriving DecidableEq

/-- struct Connection of src/tcp.rs. -/
structure Connection where
  state : State
  send : SendSequenceSpace
  recv : RecvSequenceSpace
  tcp : TcpHeader
  ip : Ipv4Header
deriving DecidableEq

/-- The fields of a parsed incoming Ipv4HeaderSlice that accept reads. -/
structure InIpv4 where
  source : Nat
  destination : Nat
deriving DecidableEq

/-- The fields of a parsed incoming TcpHeaderSlice that the source reads. -/
structure InSegment where
  source_port : Nat
  destination_port : Nat
  sequence_number : Nat
  acknowledgment_number : Nat
  window_size : Nat
  syn : Bool
  ack : Bool
  fin : Bool
deriving DecidableEq

/-- A segment as placed on the wire by Connection::write: the serialized
IPv4 header, TCP header, and the payload bytes that fit the buffer. -/
structure OutSegment where
  ip : Ipv4Header
  tcp : TcpHeader
  payload : List Nat
deriving DecidableEq

/-- Header length of the base 20-byte TCP header (no options are ever set). -/
def TcpHeader.header_len (_ : TcpHeader) : Nat := 20

/-- Header length of the base 20-byte IPv4 header (no options are ever set). -/
def Ipv4Header.header_len (_ : Ipv4Header) : Nat := 20

/-- The transmit buffer size of Connection::write. -/
def bufLen : Nat := 1500

/-- fn is_between_wrapped of src/tcp.rs: strict circular betweenness on the
32-bit sequence space, by numeric comparison of start and x. -/
def is_between_wrapped (start x e : Nat) : Bool :=
  if start = x then
    false
  else if start < x then
    if decide (e ≥ start) && decide (e ≤ x) then false else true
  else
    if decide (e < start) && decide (e > x) then true else false

/-- Connection::write of src/tcp.rs: stamps the prototype header with the
current send.nxt and recv.nxt, serializes headers plus as much payload as
fits the 1500-byte buffer, advances send.nxt by the written payload plus
one for a pending SYN and one for a pending FIN, clearing those flags. -/
def Connection.write (c : Connection) (payload : List Nat) :
    Connection × OutSegment :=
  let tcp := { c.tcp with
    sequence_number := c.send.nxt
    acknowledgment_number := c.recv.nxt }
  let size := min bufLen (tcp.header_len + c.ip.header_len + payload.length)
  let ip := { c.ip with payload_len := size - c.ip.header_len }
  let payload_bytes :=
    min payload.length (bufLen - ip.header_len - tcp.header_len)
  let nxt1 := wadd c.send.nxt payload_bytes
  let nxt2 := if tcp.syn then wadd nxt1 1 else nxt1
  let nxt3 := if tcp.fin then wadd nxt2 1 else nxt2
  ({ c with
      tcp := { tcp with syn := false, fin := false }
      ip := ip
      send := { c.send with nxt := nxt3 } },
   { ip := ip, tcp := tcp, payload := payload.take payload_bytes })

/-- Connection::accept of src/tcp.rs: on a SYN, build the connection with
iss = 0 and advertised window 1024 and emit a SYN+ACK through write; on
anything else return none. The data argument is taken as in the source
and is not consulted. -/
def Connection.accept (iph : InIpv4) (tcph : InSegment) (data : List Nat) :
    Option (Connection × OutSegment) :=
  if !tcph.syn then
    none
  else
    let iss := 0
    let wnd := 1024
    let c : Connection := {
      state := State.SyncRcvd
      send := {
        iss := iss
        una := iss
        nxt := wadd iss 1
        wnd := wnd
        up := false
        wl1 := 0
        wl2 := 0 }
      recv := {
        irs := tcph.sequence_number
        nxt := wadd tcph.sequence_number 1
        wnd := tcph.window_size
        up := false }
      tcp := {
        source_port := tcph.destination_port
        destination_port := tcph.source_port
        sequence_number := iss
        acknowledgment_number := 0
        window_size := wnd
        syn := false
        ack := false
        fin := false
        rst := false }
      ip := {
        payload_len := 0
        ttl := 64
        protocol := 6
        source := iph.destination
        destination := iph.source } }
    let c := { c with tcp := { c.tcp with syn := true, ack := true } }
    some (c.write [])

/-- SEG.LEN as computed at the top of Connection::on_packet: the payload
length truncated to u32, plus one if FIN is set, plus one if ACK is set
(the source counts the ACK flag; see the design notes of the spec). -/
def seg_len (tcph : InSegment) (data : List Nat) : Nat :=
  ((data.length % M)
    + (if tcph.fin then 1 else 0)
    + (if tcph.ack then 1 else 0)) % M

/-- The segment acceptability test of Connection::on_packet
(RFC 793 S3.3), with the nested negations of the source. -/
def acceptable (c : Connection) (tcph : InSegment) (data : List Nat) : Bool :=
  let seqn := tcph.sequence_number
  let slen := seg_len tcph data
  let wend := wadd c.recv.nxt c.recv.wnd
  if slen = 0 then
    if c.recv.wnd = 0 then
      if seqn ≠ c.recv.nxt then false else true
    else if !is_between_wrapped (wsub c.recv.nxt 1) seqn wend then false
    else true
  else
    if c.recv.wnd = 0 then false
    else if !is_between_wrapped (wsub c.recv.nxt 1) seqn wend
        && !is_between_wrapped (wsub c.recv.nxt 1)
             (wadd seqn (slen - 1)) wend then false
    else true

/-- The tail of Connection::on_packet: the FIN-acknowledged check moving
FinWait1 to FinWait2, then the peer-FIN handling, which in FinWait2 emits
an ACK and moves to TimeWait and in every other state hits the
unimplemented arm of the source (modelled as none). -/
def on_packet_tail (c : Connection) (tcph : InSegment)
    (outs : List OutSegment) : Option (Connection × List OutSegment) :=
  let c := if c.state = State.FinWait1 ∧ c.send.una = wadd c.send.iss 2 then
      { c with state := State.FinWait2 }
    else c
  if tcph.fin then
    match c.state with
    | State.FinWait2 =>
      let (c, s) := c.write []
      some ({ c with state := State.TimeWait }, outs ++ [s])
    | _ => none
  else
    some (c, outs)

/-- The SyncRcvd handshake-completion step of Connection::on_packet: if
the acknowledgment number lies strictly inside (send.una - 1, send.nxt + 1)
wrapped, the state becomes Estab; otherwise nothing happens (the RST of
the source is a TODO). -/
def step_syncrcvd (c : Connection) (ackn : Nat) : Connection :=
  if c.state = State.SyncRcvd then
    if is_between_wrapped (wsub c.send.una 1) ackn (wadd c.send.nxt 1) then
      { c with state := State.Estab }
    else c
  else c

/-- The part of Connection::on_packet after the acceptability test and the
recv.nxt advance: the ACK-required early return, the SyncRcvd handshake
completion, acknowledgment processing in the synchronized states with its
early return, the close initiation from Estab, then the tail. The assert
that the payload is empty is modelled as none on failure. -/
def on_packet_accepted (c : Connection) (tcph : InSegment)
    (data : List Nat) : Option (Connection × List OutSegment) :=
  if !tcph.ack then
    some (c, [])
  else
    let ackn := tcph.acknowledgment_number
    let c := step_syncrcvd c ackn
    if c.state = State.Estab ∨ c.state = State.FinWait1
        ∨ c.state = State.FinWait2 then
      if !is_between_wrapped c.send.una ackn (wadd c.send.nxt 1) then
        some (c, [])
      else
        let c := { c with send := { c.send with una := ackn } }
        if !data.isEmpty then
          none
        else if c.state = State.Estab then
          let c := { c with tcp := { c.tcp with fin := true } }
          let (c, s) := c.write []
          on_packet_tail { c with state := State.FinWait1 } tcph [s]
        else
          on_packet_tail c tcph []
    else
      on_packet_tail c tcph []

/-- Connection::on_packet of src/tcp.rs: the acceptability test, which on
failure answers with a single empty segment through write, and on success
advances recv.nxt by SEG.LEN before the rest of the processing. -/
def on_packet (c : Connection) (tcph : InSegment) (data : List Nat) :
    Option (Connection × List OutSegment) :=
  if !acceptable c tcph data then
    let (c, s) := c.write []
    some (c, [s])
  else
    on_packet_accepted
      { c with recv := { c.recv with
          nxt := wadd tcph.sequence_number (seg_len tcph data) } }
      tcph data

/-! Concrete segments and connections of the end-to-end scenarios of the
specification (section 8), used by the scenario theorems and witnesses. -/

/-- The incoming IPv4 header of the scenarios: peer address 1, local 2. -/
def tIp : InIpv4 := { source := 1, destination := 2 }

/-- The peer SYN of the handshake scenario: seq 1000, window 5840. -/
def tSyn : InSegment :=
  { source_port := 40000, destination_port := 80, sequence_number := 1000,
    acknowledgment_number := 0, window_size := 5840,
    syn := true, ack := false, fin := false }

/-- The peer ACK completing the handshake: seq 1001, ack 1. -/
def tAck1 : InSegment :=
  { source_port := 40000, destination_port := 80, sequence_number := 1001,
    acknowledgment_number := 1, window_size := 5840,
    syn := false, ack := true, fin := false }

/-- The peer ACK of the close scenario: seq 1001, ack 2. -/
def tAck2 : InSegment :=
  { source_port := 40000, destination_port := 80, sequence_number := 1001,
    acknowledgment_number := 2, window_size := 5840,
    syn := false, ack := true, fin := false }

/-- The peer FIN of the close scenario: seq 1001, ack 2. -/
def tFin : InSegment :=
  { source_port := 40000, destination_port := 80, sequence_number := 1001,
    acknowledgment_number := 2, window_size := 5840,
    syn := false, ack := true, fin := true }

/-- The wrap-around boundary SYN: sequence number 2^32 - 1. -/
def wSyn : InSegment :=
  { source_port := 40000, destination_port := 80,
    sequence_number := 4294967295,
    acknowledgment_number := 0, window_size := 5840,
    syn := true, ack := false, fin := false }

/-- The peer ACK after the wrap-around SYN: seq 0, ack 1. -/
def wAck : InSegment :=
  { source_port := 40000, destination_port := 80, sequence_number := 0,
    acknowledgment_number := 1, window_size := 5840,
    syn := false, ack := true, fin := false }

/-- The endpoint after accepting tSyn (the value produced by accept). -/
def cSyncRcvd : Connection :=
  { state := State.SyncRcvd
    send := { una := 0, nxt := 2, wnd := 1024, up := false,
              wl1 := 0, wl2 := 0, iss := 0 }
    recv := { nxt := 1001, wnd := 5840, up := false, irs := 1000 }
    tcp := { source_port := 80, destination_port := 40000,
             sequence_number := 1, acknowledgment_number := 1001,
             window_size := 1024,
             syn := false, ack := true, fin := false, rst := false }
    ip := { payload_len := 20, ttl := 64, protocol := 6,
            source := 2, destination := 1 } }

/-- The SYN+ACK that accept emits for tSyn. -/
def sSynAck : OutSegment :=
  { ip := { payload_len := 20, ttl := 64, protocol := 6,
            source := 2, destination := 1 }
    tcp := { source_port := 80, destination_port := 40000,
             sequence_number := 1, acknowledgment_number := 1001,
             window_size := 1024,
             syn := true, ack := true, fin := false, rst := false }
    payload := [] }

/-- The endpoint after the handshake ACK has been processed. -/
def cFinWait1 : Connection :=
  { state := State.FinWait1
    send := { una := 1, nxt := 3, wnd := 1024, up := false,
              wl1 := 0, wl2 := 0, iss := 0 }
    recv := { nxt := 1002, wnd := 5840, up := false, irs := 1000 }
    tcp := { source_port := 80, destination_port := 40000,
             sequence_number := 2, acknowledgment_number := 1002,
             window_size := 1024,
             syn := false, ack := true, fin := false, rst := false }
    ip := { payload_len := 20, ttl := 64, protocol := 6,
            source := 2, destination := 1 } }

/-- The FIN segment the endpoint emits on reaching Estab. -/
def sFin : OutSegment :=
  { ip := { payload_len := 20, ttl := 64, protocol := 6,
            source := 2, destination := 1 }
    tcp := { source_port := 80, destination_port := 40000,
             sequence_number := 2, acknowledgment_number := 1002,
             window_size := 1024,
             syn := false, ack := true, fin := true, rst := false }
    payload := [] }

/-- Handshake scenario: accept the SYN, then process the peer ACK. -/
def handshake_run : Option (Connection × List OutSegment) :=
  (Connection.accept tIp tSyn []).bind fun r => on_packet r.1 tAck1 []

/-- Close scenario, first step: the peer ACK with seq 1001 and ack 2. -/
def close_run1 : Option (Connection × List OutSegment) :=
  handshake_run.bind fun r => on_packet r.1 tAck2 []

/-- Close scenario, second step: the peer FIN with seq 1001 and ack 2. -/
def close_run2 : Option (Connection × List OutSegment) :=
  close_run1.bind fun r => on_packet r.1 tFin []

/-- SEG.LEN as the words of the spec state it: the payload length, plus
one if FIN is set, plus one if ACK is set. -/
def spec_seg_len (tcph : InSegment) (data : List Nat) : Nat :=
  data.length + (if tcph.fin then 1 else 0) + (if tcph.ack then 1 else 0)

/-- Modelled from the spec: the four-row acceptability table of section
4.3 step A over (SEG.LEN, recv.wnd), with WEND = recv.nxt + recv.wnd mod
2^32 and the wrapped strict inequalities written via is_between_wrapped. -/
def spec_acceptable (c : Connection) (tcph : InSegment)
    (data : List Nat) : Bool :=
  let len := spec_seg_len tcph data
  let wend := wadd c.recv.nxt c.recv.wnd
  if len = 0 then
    if c.recv.wnd = 0 then
      decide (tcph.sequence_number = c.recv.nxt)
    else
      is_between_wrapped (wsub c.recv.nxt 1) tcph.sequence_number wend
  else
    if c.recv.wnd = 0 then false
    else
      is_between_wrapped (wsub c.recv.nxt 1) tcph.sequence_number wend
        || is_between_wrapped (wsub c.recv.nxt 1)
             (wadd tcph.sequence_number (len - 1)) wend

/-! Helper lemmas. -/

/-- Characterization of is_between_wrapped on 32-bit operands: x lies
strictly between start and e on the circle exactly when the wrapped
distance from start to x is positive and below the wrapped distance from
start to e. -/
theorem ibw_iff (s x e : Nat) (hs : s < M) (hx : x < M) (he : e < M) :
    is_between_wrapped s x e = true ↔
      (0 < (x + M - s) % M ∧ (x + M - s) % M < (e + M - s) % M) := by
  unfold is_between_wrapped
  split_ifs with h1 h2 h3 h4 <;>
    simp only [M, Bool.and_eq_true, decide_eq_true_eq, ge_iff_le,
      gt_iff_lt, not_and, not_lt, not_le, false_iff, true_iff,
      not_and_or] at * <;>
    omega

/-- C5: for 32-bit values start, x, end: is_between_wrapped returns false
when start = x; when start < x numerically it returns false iff
start ≤ end ≤ x and true otherwise; and when start > x numerically it
returns true iff end < start and end > x, and false otherwise. -/
theorem is_between_wrapped_cases (start x e : Nat)
    (hs : start < M) (hx : x < M) (he : e < M) :
    (start = x → is_between_wrapped start x e = false)
    ∧ (start < x →
        (is_between_wrapped start x e = false ↔ (start ≤ e ∧ e ≤ x)))
    ∧ (x < start →
        (is_between_wrapped start x e = true ↔ (e < start ∧ x < e))) := by
  unfold is_between_wrapped
  refine ⟨fun h => by simp [h], fun h => ?_, fun h => ?_⟩ <;>
    split_ifs <;>
    simp_all <;>
    omega

/-- C5 witness: the three case descriptions instantiated at the concrete
triple (5, 10, 7). -/
theorem is_between_wrapped_cases_witness :
    (5 < M ∧ 10 < M ∧ 7 < M)
    ∧ ((5 = 10 → is_between_wrapped 5 10 7 = false)
       ∧ (5 < 10 →
           (is_between_wrapped 5 10 7 = false ↔ (5 ≤ 7 ∧ 7 ≤ 10)))
       ∧ (10 < 5 →
           (is_between_wrapped 5 10 7 = true ↔ (7 < 5 ∧ 10 < 7)))) :=
  ⟨by decide,
   is_between_wrapped_cases 5 10 7 (by decide) (by decide) (by decide)⟩

/-- C6: is_between_wrapped returns false whenever start = x, and it is
invariant under translating all three arguments by any k mod 2^32. -/
theorem is_between_wrapped_translation_invariant :
    (∀ start x e : Nat, start = x →
      is_between_wrapped start x e = false)
    ∧ (∀ a b c k : Nat, a < M → b < M → c < M → k < M →
        is_between_wrapped a b c
          = is_between_wrapped (wadd a k) (wadd b k) (wadd c k)) := by
  constructor
  · intro s x e h
    simp [is_between_wrapped, h]
  · intro a b c k ha hb hc hk
    have hM : 0 < M := by decide
    have h1 := ibw_iff a b c ha hb hc
    have h2 := ibw_iff (wadd a k) (wadd b k) (wadd c k)
      (Nat.mod_lt _ hM) (Nat.mod_lt _ hM) (Nat.mod_lt _ hM)
    have e1 : (wadd b k + M - wadd a k) % M = (b + M - a) % M := by
      simp only [wadd, M] at *
      omega
    have e2 : (wadd c k + M - wadd a k) % M = (c + M - a) % M := by
      simp only [wadd, M] at *
      omega
    rw [e1, e2] at h2
    exact Bool.eq_iff_iff.mpr (h1.trans h2.symm)

/-- C6 witness: false at the equal pair (4, 4, 9), and translation
invariance at (1, 2, 3) shifted by 5. -/
theorem is_between_wrapped_translation_invariant_witness :
    (1 < M ∧ 2 < M ∧ 3 < M ∧ 5 < M)
    ∧ is_between_wrapped 4 4 9 = false
    ∧ is_between_wrapped 1 2 3
        = is_between_wrapped (wadd 1 5) (wadd 2 5) (wadd 3 5) :=
  ⟨by decide,
   is_between_wrapped_translation_invariant.1 4 4 9 rfl,
   is_between_wrapped_translation_invariant.2 1 2 3 5
     (by decide) (by decide) (by decide) (by decide)⟩

/-- C1 counterexample: at the concrete SYN with sequence number 1000 and
window 5840, accept creates a connection, but the SYN+ACK it emits carries
sequence number 1, not the claimed 0. -/
theorem accept_synack_seq_not_zero_cex :
    ((Connection.accept tIp tSyn []).map fun r =>
        r.2.tcp.sequence_number) = some 1
    ∧ ((Connection.accept tIp tSyn []).map fun r =>
        r.2.tcp.sequence_number) ≠ some 0 := by
  constructor
  · rfl
  · decide

/-- C1 (amended): for every incoming SYN segment with sequence number s,
accept creates a connection and the SYN+ACK it emits carries
acknowledgment number s + 1 mod 2^32, sequence number 1 (the source
initializes send.nxt to iss + 1 = 1 before the write stamps the header),
window 1024, and an empty payload. -/
theorem accept_emits_synack (iph : InIpv4) (tcph : InSegment)
    (data : List Nat) (h : tcph.syn = true) :
    ((Connection.accept iph tcph data).map fun r =>
        (r.2.tcp.acknowledgment_number, r.2.tcp.sequence_number,
         r.2.tcp.window_size, r.2.tcp.syn, r.2.tcp.ack, r.2.payload))
      = some (wadd tcph.sequence_number 1, 1, 1024, true, true, []) := by
  unfold Connection.accept
  rw [h]
  rfl

/-- C1 witness: the amended statement at the concrete handshake SYN. -/
theorem accept_emits_synack_witness :
    tSyn.syn = true
    ∧ ((Connection.accept tIp tSyn []).map fun r =>
        (r.2.tcp.acknowledgment_number, r.2.tcp.sequence_number,
         r.2.tcp.window_size, r.2.tcp.syn, r.2.tcp.ack, r.2.payload))
      = some (wadd tSyn.sequence_number 1, 1, 1024, true, true, []) :=
  ⟨rfl, accept_emits_synack tIp tSyn [] rfl⟩

/-- C2 counterexample: in the three-way-handshake scenario the endpoint
does reach FinWait1, but the FIN segment it emits carries sequence number
2 and acknowledgment number 1002, not the claimed 1 and 1001. -/
theorem handshake_fin_numbers_cex :
    (handshake_run.map fun r =>
        (r.1.state, r.2.map fun s =>
          (s.tcp.sequence_number, s.tcp.acknowledgment_number, s.tcp.fin)))
      = some (State.FinWait1, [(2, 1002, true)])
    ∧ (handshake_run.map fun r =>
        (r.1.state, r.2.map fun s =>
          (s.tcp.sequence_number, s.tcp.acknowledgment_number, s.tcp.fin)))
      ≠ some (State.FinWait1, [(1, 1001, true)]) := by
  constructor
  · rfl
  · decide

/-- C2 (amended): after the peer SYN with seq 1000 and win 5840 and the
peer ACK with seq 1001 and ack 1, the connection (transiently Estab)
immediately emits exactly one FIN-flagged segment with seq 2 and ack 1002
and empty payload, and the state afterwards is FinWait1. The seq and ack
are shifted from the claimed 1 and 1001 because the source initializes
send.nxt to iss + 1 and counts the ACK flag in SEG.LEN. -/
theorem handshake_scenario :
    (handshake_run.map fun r =>
        (r.1.state, r.2.map fun s =>
          (s.tcp.sequence_number, s.tcp.acknowledgment_number,
           s.tcp.syn, s.tcp.ack, s.tcp.fin, s.payload)))
      = some (State.FinWait1,
          [(2, 1002, false, true, true, ([] : List Nat))]) := by
  rfl

/-- C3 counterexample: continuing the handshake scenario, after the peer
ACK with seq 1001 and ack 2 the state is still FinWait1, not the claimed
FinWait2: the segment is judged out of window because recv.nxt has
already advanced to 1002. -/
theorem close_state_not_finwait2_cex :
    (close_run1.map fun r => r.1.state) = some State.FinWait1
    ∧ (close_run1.map fun r => r.1.state) ≠ some State.FinWait2 := by
  constructor
  · rfl
  · decide

/-- C3 (amended): continuing the handshake scenario: the peer ACK with
seq 1001 and ack 2 is out of window (recv.nxt is already 1002), elicits
one empty ACK with seq 3 and ack 1002 and leaves the state FinWait1; the
peer FIN with seq 1001 and ack 2 is then acceptable through its last
sequence position, moves the connection through FinWait2 (its una reaches
iss + 2), emits one ACK with seq 3 and ack 1003, and the state afterwards
is TimeWait. -/
theorem close_scenario :
    (close_run1.map fun r =>
        (r.1.state, r.2.map fun s =>
          (s.tcp.sequence_number, s.tcp.acknowledgment_number,
           s.tcp.fin, s.payload)))
      = some (State.FinWait1, [(3, 1002, false, ([] : List Nat))])
    ∧ (close_run2.map fun r =>
        (r.1.state, r.2.map fun s =>
          (s.tcp.sequence_number, s.tcp.acknowledgment_number,
           s.tcp.fin, s.payload)))
      = some (State.TimeWait, [(3, 1003, false, ([] : List Nat))]) := by
  exact ⟨rfl, rfl⟩

/-- C9: sequence arithmetic wraps mod 2^32: for every SYN, the connection
is created with recv.nxt = seq + 1 mod 2^32 and the SYN+ACK acknowledges
seq + 1 mod 2^32; at the boundary SYN with sequence number 2^32 - 1 both
are 0, and the subsequent peer ACK with seq 0 passes the acceptability
test. -/
theorem wraparound_boundary :
    (∀ (iph : InIpv4) (tcph : InSegment) (data : List Nat),
      tcph.syn = true →
      ((Connection.accept iph tcph data).map fun r =>
          (r.1.recv.nxt, r.2.tcp.acknowledgment_number))
        = some ((tcph.sequence_number + 1) % M,
                (tcph.sequence_number + 1) % M))
    ∧ ((Connection.accept tIp wSyn []).map fun r =>
        (r.1.recv.nxt, r.2.tcp.acknowledgment_number)) = some (0, 0)
    ∧ ((Connection.accept tIp wSyn []).map fun r =>
        acceptable r.1 wAck []) = some true := by
  refine ⟨?_, rfl, rfl⟩
  intro iph tcph data h
  unfold Connection.accept
  rw [h]
  rfl

/-- C9 witness: the general wrap formula instantiated at the boundary
SYN with sequence number 2^32 - 1. -/
theorem wraparound_boundary_witness :
    wSyn.syn = true
    ∧ ((Connection.accept tIp wSyn []).map fun r =>
        (r.1.recv.nxt, r.2.tcp.acknowledgment_number))
      = some ((wSyn.sequence_number + 1) % M,
              (wSyn.sequence_number + 1) % M) :=
  ⟨rfl, wraparound_boundary.1 tIp wSyn [] rfl⟩

/-- C10: accept ignores any payload carried on the SYN: its whole result
is independent of the payload bytes, and on a SYN the connection is
created with recv.nxt = seq + 1 mod 2^32 whatever the payload length. -/
theorem accept_ignores_payload :
    (∀ (iph : InIpv4) (tcph : InSegment) (data : List Nat),
      Connection.accept iph tcph data = Connection.accept iph tcph [])
    ∧ (∀ (iph : InIpv4) (tcph : InSegment) (data : List Nat),
      tcph.syn = true →
      ((Connection.accept iph tcph data).map fun r => r.1.recv.nxt)
        = some (wadd tcph.sequence_number 1)) := by
  constructor
  · intro iph tcph data
    rfl
  · intro iph tcph data h
    unfold Connection.accept
    rw [h]
    rfl

/-- C10 witness: payload independence and the recv.nxt formula at the
concrete handshake SYN carrying a payload byte. -/
theorem accept_ignores_payload_witness :
    Connection.accept tIp tSyn [9] = Connection.accept tIp tSyn []
    ∧ tSyn.syn = true
    ∧ ((Connection.accept tIp tSyn [9]).map fun r => r.1.recv.nxt)
      = some (wadd tSyn.sequence_number 1) :=
  ⟨accept_ignores_payload.1 tIp tSyn [9], rfl,
   accept_ignores_payload.2 tIp tSyn [9] rfl⟩

/-- C4: for every segment whose payload fits 32 bits, the segment length
used in the acceptability test equals payload_len plus one if FIN is set
plus one if ACK is set; the segment is judged acceptable exactly per the
four-row table over (SEG.LEN, recv.wnd) with WEND = recv.nxt + recv.wnd
mod 2^32; and whenever the segment is acceptable, on_packet proceeds on
the connection whose recv.nxt has been set to seq + SEG.LEN mod 2^32
before any further processing. -/
theorem acceptability_matches_spec (c : Connection) (tcph : InSegment)
    (data : List Nat) (h : data.length + 2 < M) :
    seg_len tcph data = spec_seg_len tcph data
    ∧ acceptable c tcph data = spec_acceptable c tcph data
    ∧ (acceptable c tcph data = true →
        on_packet c tcph data
          = on_packet_accepted
              { c with recv := { c.recv with
                  nxt := wadd tcph.sequence_number
                           (spec_seg_len tcph data) } }
              tcph data) := by
  have hlen : seg_len tcph data = spec_seg_len tcph data := by
    unfold seg_len spec_seg_len
    have hm : data.length % M = data.length := Nat.mod_eq_of_lt (by omega)
    rw [hm]
    apply Nat.mod_eq_of_lt
    split_ifs <;> omega
  refine ⟨hlen, ?_, ?_⟩
  · unfold acceptable spec_acceptable
    rw [hlen]
    split_ifs <;>
      simp_all
  · intro hok
    unfold on_packet
    rw [hok, hlen]
    rfl

/-- C4 witness: the three conjuncts at the concrete connection in
SyncRcvd and the handshake-completing ACK with empty payload. -/
theorem acceptability_matches_spec_witness :
    ([] : List Nat).length + 2 < M
    ∧ (seg_len tAck1 [] = spec_seg_len tAck1 []
       ∧ acceptable cSyncRcvd tAck1 [] = spec_acceptable cSyncRcvd tAck1 []
       ∧ (acceptable cSyncRcvd tAck1 [] = true →
           on_packet cSyncRcvd tAck1 []
             = on_packet_accepted
                 { cSyncRcvd with recv := { cSyncRcvd.recv with
                     nxt := wadd tAck1.sequence_number
                              (spec_seg_len tAck1 []) } }
                 tAck1 [])) :=
  ⟨by decide, acceptability_matches_spec cSyncRcvd tAck1 [] (by decide)⟩

/-- Connection.write on the empty payload with no pending SYN or FIN on
the prototype header: the emitted segment carries the current send.nxt
and recv.nxt with the prototype flags, and the send sequence space is
unchanged. -/
theorem write_empty_eq (c : Connection) (hsyn : c.tcp.syn = false)
    (hfin : c.tcp.fin = false) (hnxt : c.send.nxt < M) :
    c.write [] =
      ({ c with
          tcp := { c.tcp with
            sequence_number := c.send.nxt
            acknowledgment_number := c.recv.nxt }
          ip := { c.ip with payload_len := 20 } },
       { ip := { c.ip with payload_len := 20 }
         tcp := { c.tcp with
           sequence_number := c.send.nxt
           acknowledgment_number := c.recv.nxt }
         payload := [] }) := by
  unfold Connection.write
  simp [hsyn, hfin, bufLen, TcpHeader.header_len, Ipv4Header.header_len,
    wadd, Nat.mod_eq_of_lt hnxt]

/-- The acceptability test reads only the receive sequence space of the
connection. -/
theorem acceptable_congr (c c' : Connection) (tcph : InSegment)
    (data : List Nat) (h : c.recv = c'.recv) :
    acceptable c tcph data = acceptable c' tcph data := by
  unfold acceptable
  rw [h]

/-- C7: a segment failing the acceptability test elicits exactly one
empty segment carrying the current send.nxt as sequence number and the
current recv.nxt as acknowledgment number, and leaves the state and the
send and receive sequence spaces unchanged; a second failing segment for
the same connection elicits one more such segment, identical in content.
Stated at the entry conditions that hold for every live connection: no
pending SYN or FIN on the prototype header and a 32-bit send.nxt. -/
theorem out_of_window_empty_ack (c : Connection) (tcph1 tcph2 : InSegment)
    (data1 data2 : List Nat)
    (hsyn : c.tcp.syn = false) (hfin : c.tcp.fin = false)
    (hnxt : c.send.nxt < M)
    (h1 : acceptable c tcph1 data1 = false)
    (h2 : acceptable c tcph2 data2 = false) :
    ∃ c1 s1 c2 s2,
      on_packet c tcph1 data1 = some (c1, [s1])
      ∧ s1.tcp.sequence_number = c.send.nxt
      ∧ s1.tcp.acknowledgment_number = c.recv.nxt
      ∧ s1.payload = []
      ∧ c1.state = c.state ∧ c1.send = c.send ∧ c1.recv = c.recv
      ∧ on_packet c1 tcph2 data2 = some (c2, [s2])
      ∧ s2 = s1
      ∧ c2.state = c.state ∧ c2.send = c.send ∧ c2.recv = c.recv := by
  have hw := write_empty_eq c hsyn hfin hnxt
  have hop1 : on_packet c tcph1 data1 = some ((c.write []).1, [(c.write []).2]) := by
    unfold on_packet
    rw [h1]
    rfl
  rw [hw] at hop1
  set c1 : Connection :=
    { c with
        tcp := { c.tcp with
          sequence_number := c.send.nxt
          acknowledgment_number := c.recv.nxt }
        ip := { c.ip with payload_len := 20 } } with hc1
  have hrecv1 : c1.recv = c.recv := rfl
  have hacc2 : acceptable c1 tcph2 data2 = false := by
    rw [acceptable_congr c1 c tcph2 data2 hrecv1]
    exact h2
  have hw2 := write_empty_eq c1 hsyn hfin hnxt
  have hop2 : on_packet c1 tcph2 data2
      = some ((c1.write []).1, [(c1.write []).2]) := by
    unfold on_packet
    rw [hacc2]
    rfl
  rw [hw2] at hop2
  exact ⟨_, _, _, _, hop1, rfl, rfl, rfl, rfl, rfl, rfl, hop2, rfl, rfl, rfl, rfl⟩

/-- C7 witness: two copies of the stale segment with seq 1001 against
the connection in FinWait1, whose receive window starts at 1002. -/
theorem out_of_window_empty_ack_witness :
    (cFinWait1.tcp.syn = false ∧ cFinWait1.tcp.fin = false
     ∧ cFinWait1.send.nxt < M
     ∧ acceptable cFinWait1 tAck2 [] = false)
    ∧ (∃ c1 s1 c2 s2,
        on_packet cFinWait1 tAck2 [] = some (c1, [s1])
        ∧ s1.tcp.sequence_number = cFinWait1.send.nxt
        ∧ s1.tcp.acknowledgment_number = cFinWait1.recv.nxt
        ∧ s1.payload = []
        ∧ c1.state = cFinWait1.state ∧ c1.send = cFinWait1.send
        ∧ c1.recv = cFinWait1.recv
        ∧ on_packet c1 tAck2 [] = some (c2, [s2])
        ∧ s2 = s1
        ∧ c2.state = cFinWait1.state ∧ c2.send = cFinWait1.send
        ∧ c2.recv = cFinWait1.recv) :=
  ⟨⟨rfl, rfl, by decide, by decide⟩,
   out_of_window_empty_ack cFinWait1 tAck2 tAck2 [] []
     rfl rfl (by decide) (by decide) (by decide)⟩

/-- Connection.write on the empty payload with a pending FIN (and no
pending SYN) on the prototype header: send.nxt advances by one mod 2^32
and both flags are clear afterwards. -/
theorem write_empty_fin_eq (c : Connection) (hsyn : c.tcp.syn = false)
    (hfin : c.tcp.fin = true) (hnxt : c.send.nxt < M) :
    c.write [] =
      ({ c with
          tcp := { c.tcp with
            sequence_number := c.send.nxt
            acknowledgment_number := c.recv.nxt
            fin := false }
          ip := { c.ip with payload_len := 20 }
          send := { c.send with nxt := (c.send.nxt + 1) % M } },
       { ip := { c.ip with payload_len := 20 }
         tcp := { c.tcp with
           sequence_number := c.send.nxt
           acknowledgment_number := c.recv.nxt }
         payload := [] }) := by
  unfold Connection.write
  simp [hsyn, hfin, bufLen, TcpHeader.header_len, Ipv4Header.header_len,
    wadd, Nat.mod_eq_of_lt hnxt]

/-- The step_syncrcvd transform changes at most the state. -/
theorem step_syncrcvd_send (c : Connection) (ackn : Nat) :
    (step_syncrcvd c ackn).send = c.send
    ∧ (step_syncrcvd c ackn).tcp = c.tcp
    ∧ (step_syncrcvd c ackn).recv = c.recv := by
  unfold step_syncrcvd
  split
  · split <;> exact ⟨rfl, rfl, rfl⟩
  · exact ⟨rfl, rfl, rfl⟩

/-- The tail of on_packet leaves the send sequence space unchanged when
the prototype header carries no pending SYN or FIN. -/
theorem on_packet_tail_send (c : Connection) (tcph : InSegment)
    (outs : List OutSegment) (c' : Connection) (outs' : List OutSegment)
    (h : on_packet_tail c tcph outs = some (c', outs'))
    (hsyn : c.tcp.syn = false) (hfin : c.tcp.fin = false)
    (hnxt : c.send.nxt < M) :
    c'.send = c.send := by
  simp only [on_packet_tail] at h
  set c2 := (if c.state = State.FinWait1 ∧ c.send.una = wadd c.send.iss 2
    then { c with state := State.FinWait2 } else c) with hc2
  have hsend : c2.send = c.send := by
    rw [hc2]
    split <;> rfl
  have htcp : c2.tcp = c.tcp := by
    rw [hc2]
    split <;> rfl
  cases htf : tcph.fin
  · rw [htf] at h
    simp only [Bool.false_eq_true, if_false, Option.some.injEq,
      Prod.mk.injEq] at h
    rw [← h.1]
    exact hsend
  · rw [htf] at h
    simp only [if_true] at h
    cases hst : c2.state <;> rw [hst] at h
    case SyncRcvd => simp at h
    case Estab => simp at h
    case FinWait1 => simp at h
    case CloseWait => simp at h
    case TimeWait => simp at h
    case FinWait2 =>
      simp only [] at h
      rw [write_empty_eq c2 (htcp ▸ hsyn) (htcp ▸ hfin) (hsend ▸ hnxt)] at h
      simp only [Option.some.injEq, Prod.mk.injEq] at h
      rw [← h.1]
      exact hsend

/-- An acknowledgment number strictly inside (una, nxt + 1) wrapped keeps
the wrapped distance to nxt, and to nxt + 1, below 2^31. -/
theorem seq_le_after_ack (u n a : Nat) (hu : u < M) (hn : n < M)
    (ha : a < M) (hle : seq_le u n)
    (hibw : is_between_wrapped u a (wadd n 1) = true) :
    seq_le a n ∧ seq_le a ((n + 1) % M) := by
  have h := (ibw_iff u a (wadd n 1) hu ha
    (Nat.mod_lt _ (by decide))).mp hibw
  unfold seq_le wsub wadd at *
  simp only [M] at *
  omega

/-- Acknowledgment processing and everything after it preserves the
wrapped send-space order, at the entry conditions of a live connection. -/
theorem on_packet_accepted_send (c : Connection) (tcph : InSegment)
    (data : List Nat) (c' : Connection) (outs : List OutSegment)
    (h : on_packet_accepted c tcph data = some (c', outs))
    (hu : c.send.una < M) (hn : c.send.nxt < M)
    (ha : tcph.acknowledgment_number < M)
    (hsyn : c.tcp.syn = false) (hfin : c.tcp.fin = false)
    (hle : seq_le c.send.una c.send.nxt) :
    seq_le c'.send.una c'.send.nxt := by
  simp only [on_packet_accepted] at h
  cases hack : tcph.ack
  · rw [hack] at h
    simp only [Bool.not_false, if_true, Option.some.injEq,
      Prod.mk.injEq] at h
    rw [← h.1]
    exact hle
  · rw [hack] at h
    simp only [Bool.not_true, Bool.false_eq_true, if_false] at h
    obtain ⟨h1send, h1tcp, -⟩ :=
      step_syncrcvd_send c tcph.acknowledgment_number
    generalize hgen : step_syncrcvd c tcph.acknowledgment_number = cc
      at h h1send h1tcp
    rw [← h1send] at hu hn hle
    rw [← h1tcp] at hsyn hfin
    clear h1send h1tcp hgen hack
    by_cases hg : (cc.state = State.Estab ∨ cc.state = State.FinWait1
        ∨ cc.state = State.FinWait2)
    · rw [if_pos hg] at h
      cases hibw : is_between_wrapped cc.send.una
          tcph.acknowledgment_number (wadd cc.send.nxt 1)
      · rw [hibw] at h
        simp only [Bool.not_false, if_true, Option.some.injEq,
          Prod.mk.injEq] at h
        rw [← h.1]
        exact hle
      · rw [hibw] at h
        simp only [Bool.not_true, Bool.false_eq_true, if_false] at h
        have hseq := seq_le_after_ack cc.send.una cc.send.nxt
          tcph.acknowledgment_number hu hn ha hle hibw
        cases hdat : data.isEmpty
        · rw [hdat] at h
          simp at h
        · rw [hdat] at h
          simp only [Bool.not_true, Bool.false_eq_true, if_false] at h
          by_cases hst : cc.state = State.Estab
          · rw [if_pos hst] at h
            rw [write_empty_fin_eq
              { cc with
                  send := { cc.send with una := tcph.acknowledgment_number }
                  tcp := { cc.tcp with fin := true } }
              hsyn rfl hn] at h
            have htail := on_packet_tail_send _ tcph _ c' outs h
              hsyn rfl (Nat.mod_lt _ (by decide))
            rw [htail]
            exact hseq.2
          · rw [if_neg hst] at h
            have htail := on_packet_tail_send _ tcph _ c' outs h
              hsyn hfin hn
            rw [htail]
            exact hseq.1
    · rw [if_neg hg] at h
      have htail := on_packet_tail_send cc tcph [] c' outs h
        hsyn hfin hn
      rw [htail]
      exact hle

/-- C8: send.una stays at or before send.nxt in wrapped order: the
relation holds for the connection accept constructs, is preserved by
every on_packet invocation (at the entry conditions of a live connection:
32-bit fields and no pending SYN or FIN on the prototype header), and is
preserved by write on the empty payloads the state machine passes it
whenever the pending flag increments leave the distance inside the
half-space. -/
theorem send_una_le_nxt_invariant :
    (∀ (iph : InIpv4) (tcph : InSegment) (data : List Nat)
        (c : Connection) (s : OutSegment),
      Connection.accept iph tcph data = some (c, s) →
      seq_le c.send.una c.send.nxt)
    ∧ (∀ (c : Connection) (tcph : InSegment) (data : List Nat)
        (c' : Connection) (outs : List OutSegment),
      c.send.una < M → c.send.nxt < M →
      tcph.acknowledgment_number < M →
      c.tcp.syn = false → c.tcp.fin = false →
      seq_le c.send.una c.send.nxt →
      on_packet c tcph data = some (c', outs) →
      seq_le c'.send.una c'.send.nxt)
    ∧ (∀ (c c1 : Connection) (s : OutSegment),
      c.send.una < M → c.send.nxt < M →
      seq_le c.send.una c.send.nxt →
      wsub c.send.nxt c.send.una
          + (if c.tcp.syn then 1 else 0) + (if c.tcp.fin then 1 else 0)
        < 2147483648 →
      c.write [] = (c1, s) →
      seq_le c1.send.una c1.send.nxt) := by
  refine ⟨?_, ?_, ?_⟩
  · intro iph tcph data c s hacc
    cases hsyn : tcph.syn
    · unfold Connection.accept at hacc
      rw [hsyn] at hacc
      exact absurd hacc (by simp)
    · unfold Connection.accept at hacc
      rw [hsyn] at hacc
      simp only [Bool.not_true, Bool.false_eq_true, if_false,
        Option.some.injEq, Prod.ext_iff] at hacc
      obtain ⟨h1, -⟩ := hacc
      rw [← h1]
      exact (by decide : seq_le 0 2)
  · intro c tcph data c' outs hu hn ha hsyn hfin hle hop
    unfold on_packet at hop
    cases hacc : acceptable c tcph data
    · rw [hacc] at hop
      simp only [Bool.not_false, if_true] at hop
      rw [write_empty_eq c hsyn hfin hn] at hop
      simp only [Option.some.injEq, Prod.mk.injEq] at hop
      rw [← hop.1]
      exact hle
    · rw [hacc] at hop
      simp only [Bool.not_true, Bool.false_eq_true, if_false] at hop
      exact on_packet_accepted_send _ tcph data c' outs hop hu hn ha
        hsyn hfin hle
  · intro c c1 s hu hn hle hroom hw
    have hc1 : c1 = (c.write []).1 := by
      rw [hw]
    subst hc1
    cases hsb : c.tcp.syn <;> cases hfb : c.tcp.fin <;>
      rw [hsb, hfb] at hroom <;>
      simp [Connection.write, hsb, hfb, seq_le, wsub, wadd, M]
        at hu hn hroom hle ⊢ <;>
      omega

/-- C8 witness: the invariant at the accepted handshake connection, its
preservation across the handshake-completing ACK, and preservation by a
write on the empty payload. -/
theorem send_una_le_nxt_invariant_witness :
    (Connection.accept tIp tSyn [] = some (cSyncRcvd, sSynAck)
     ∧ cSyncRcvd.send.una < M ∧ cSyncRcvd.send.nxt < M
     ∧ tAck1.acknowledgment_number < M
     ∧ cSyncRcvd.tcp.syn = false ∧ cSyncRcvd.tcp.fin = false
     ∧ on_packet cSyncRcvd tAck1 [] = some (cFinWait1, [sFin])
     ∧ wsub cSyncRcvd.send.nxt cSyncRcvd.send.una
         + (if cSyncRcvd.tcp.syn then 1 else 0)
         + (if cSyncRcvd.tcp.fin then 1 else 0) < 2147483648
     ∧ cSyncRcvd.write [] = ((cSyncRcvd.write []).1, (cSyncRcvd.write []).2))
    ∧ seq_le cSyncRcvd.send.una cSyncRcvd.send.nxt
    ∧ seq_le cFinWait1.send.una cFinWait1.send.nxt
    ∧ seq_le ((cSyncRcvd.write []).1).send.una
        ((cSyncRcvd.write []).1).send.nxt :=
  ⟨⟨by decide, by decide, by decide, by decide, by decide, by decide,
    by decide, by decide, rfl⟩,
   send_una_le_nxt_invariant.1 tIp tSyn [] cSyncRcvd sSynAck (by decide),
   send_una_le_nxt_invariant.2.1 cSyncRcvd tAck1 [] cFinWait1 [sFin]
     (by decide) (by decide) (by decide) (by decide) (by decide)
     (by decide) (by decide),
   send_una_le_nxt_invariant.2.2 cSyncRcvd (cSyncRcvd.write []).1
     (cSyncRcvd.write []).2 (by decide) (by decide) (by decide)
     (by decide) rfl⟩

end Trust
